import Mathlib

/-!
Shallow embedding of `src/homework.py` (a Telegram homework-status polling
bot).  JSON/Python values are modelled by `PyVal`; fallible Python code is
modelled in `Except Exc`; the main loop is modelled as a step function
`cycleStep` over an explicit `LoopState`, driven by one `CycleEnv`
(transport outcome + messaging-channel outcome) per iteration.
-/

/-- Python/JSON values as they occur in this program: ints, strings, `None`,
lists and string-keyed dicts (every JSON object key is a string).  Floats and
booleans do not occur in the code paths under verification. -/
inductive PyVal : Type where
  | pyInt (i : Int)
  | pyStr (s : String)
  | pyNone
  | pyList (l : List PyVal)
  | pyDict (l : List (String × PyVal))

open PyVal

mutual

/-- Python `repr` of a value (as used when a value is rendered inside a
`str()` of a dict or list).  String escaping corner cases are not modelled:
a string is rendered between two apostrophes. -/
def pyRepr : PyVal → String
  | .pyInt i => toString i
  | .pyStr s => "\x27" ++ s ++ "\x27"
  | .pyNone => "None"
  | .pyList l => "[" ++ pyReprItems l ++ "]"
  | .pyDict l => "\x7b" ++ pyReprPairs l ++ "\x7d"

/-- Comma-separated `repr`s of list items. -/
def pyReprItems : List PyVal → String
  | [] => ""
  | [v] => pyRepr v
  | v :: vs => pyRepr v ++ ", " ++ pyReprItems vs

/-- Comma-separated `repr`s of dict entries. -/
def pyReprPairs : List (String × PyVal) → String
  | [] => ""
  | [(k, v)] => "\x27" ++ k ++ "\x27: " ++ pyRepr v
  | (k, v) :: kvs => "\x27" ++ k ++ "\x27: " ++ pyRepr v ++ ", " ++ pyReprPairs kvs

end

/-- Python `str()` of a value (f-string interpolation): a string renders as
itself, everything else as its `repr`. -/
def pyToStr : PyVal → String
  | .pyStr s => s
  | v => pyRepr v

/-- `d.get(key)` on a Python dict (keys are unique, first match wins). -/
def dictGet : List (String × PyVal) → String → Option PyVal
  | [], _ => none
  | (k, v) :: tl, key => if k = key then some v else dictGet tl key

/-- `d.get(key, default)` on a Python dict. -/
def dictGetD (l : List (String × PyVal)) (key : String) (d : PyVal) : PyVal :=
  (dictGet l key).getD d

/-- The exceptions raised by the embedded code: `TypeError`, `KeyError`
and the builtin `ConnectionError` raised by `get_api_answer`. -/
inductive Exc : Type where
  | typeError (msg : String)
  | keyError (msg : String)
  | connectionError (msg : String)

/-- Python `str(error)`: plain message for `TypeError`/`ConnectionError`;
`KeyError` renders the `repr` of its argument, i.e. with apostrophes. -/
def excMsg : Exc → String
  | .typeError m => m
  | .keyError m => "\x27" ++ m ++ "\x27"
  | .connectionError m => m

/-- `HOMEWORK_VERDICTS` from `homework.py`. -/
def HOMEWORK_VERDICTS : List (String × String) :=
  [("approved", "Работа проверена: ревьюеру всё понравилось. Ура!"),
   ("reviewing", "Работа взята на проверку ревьюером."),
   ("rejected", "Работа проверена: у ревьюера есть замечания.")]

/-- Key lookup in a string-to-string table (Python dict indexing). -/
def lookupVerdict : List (String × String) → String → Option String
  | [], _ => none
  | (k, v) :: tl, key => if k = key then some v else lookupVerdict tl key

/-- Python `status in HOMEWORK_VERDICTS` followed by indexing: a non-string
value is never equal to a string key, hence `none`. -/
def verdictOf : PyVal → Option String
  | .pyStr s => lookupVerdict HOMEWORK_VERDICTS s
  | _ => none

/-- `ENDPOINT` from `homework.py`. -/
def ENDPOINT : String := "https://practicum.yandex.ru/api/user_api/homework_statuses/"

/-- `check_response` from `homework.py`: type-check of the API answer.
Raises `TypeError` if the answer is not a dict, `KeyError` if the key
`homeworks` is absent, `TypeError` if its value is not a list.  (The function
performs no check on `current_date`.) -/
def check_response : PyVal → Except Exc Unit
  | .pyDict l =>
    match dictGet l "homeworks" with
    | none => .error (.keyError "В ответе API отсутствует ключ: `homeworks`.")
    | some (.pyList _) => .ok ()
    | some _ => .error (.typeError "Тип данных в ответе API под ключом `homeworks` не list.")
  | _ => .error (.typeError "Тип переданного ответа API не dict.")

/-- `parse_status` from `homework.py`: guards (dict, `homework_name` key,
`status` key, documented status) then the fixed message template. -/
def parse_status : PyVal → Except Exc String
  | .pyDict l =>
    match dictGet l "homework_name" with
    | none => .error (.keyError "В аргументе отсутствует ключ: `homework_name`.")
    | some nameV =>
      match dictGet l "status" with
      | none => .error (.keyError "В аргументе отсутствует ключ: `status`.")
      | some statusV =>
        match verdictOf statusV with
        | none => .error (.keyError "Недокументированный статус работы.")
        | some verdict =>
          .ok ("Изменился статус проверки работы \"" ++ pyToStr nameV ++ "\". " ++ verdict)
  | _ => .error (.typeError "Тип переданного аргумента не словарь.")

/-- A `telegram.error.TelegramError` from the messaging channel, abstracted
to its text. -/
def TgError : Type := String

/-- `send_message` from `homework.py`: attempts `bot.send_message` (whose
outcome is the argument), catches `TelegramError` returning `False`, returns
`True` on success.  The function is total: it never raises. -/
def send_message : Except TgError Unit → Bool
  | .ok _ => true
  | .error _ => false

/-- Does the pattern `t` start the list `s`? -/
def leadsWith : List Char → List Char → Bool
  | [], _ => true
  | _ :: _, [] => false
  | a :: as, b :: bs => a == b && leadsWith as bs

/-- Does the pattern `t` occur (as a contiguous run) somewhere in `s`? -/
def occursIn (t : List Char) : List Char → Bool
  | [] => t.isEmpty
  | c :: s => leadsWith t (c :: s) || occursIn t s

/-- Fuel-indexed core of Python `str.replace`: greedy left-to-right
replacement of non-overlapping occurrences of `t` by `r`.  One unit of fuel
is spent per step, so fuel `≥ s.length` makes the fuel irrelevant. -/
def repF (t r : List Char) : Nat → List Char → List Char
  | _, [] => []
  | 0, s => s
  | fuel + 1, c :: s =>
    if leadsWith t (c :: s) && !t.isEmpty then
      r ++ repF t r fuel (List.drop (t.length - 1) s)
    else
      c :: repF t r fuel s

/-- Python `s.replace(t, r)` for a non-empty pattern `t` (the program only
calls it with the non-empty secret token as the pattern). -/
def pyReplace (s t r : String) : String :=
  ⟨repF t.toList r.toList s.toList.length s.toList⟩

/-- `strOccursIn t s`: does the string `t` occur as a substring of `s`? -/
def strOccursIn (t s : String) : Bool :=
  occursIn t.toList s.toList

/-- The literal text of `request_info` before the secret token: the
formatted endpoint and the headers dict up to `OAuth `. -/
def infoHead : String :=
  "эндпоинт: " ++ ENDPOINT ++ ", заголовки запроса: \x7b\x27Authorization\x27: \x27OAuth "

/-- The text of `request_info` after the secret token: the closing of the
headers dict and the params dict rendered with the cursor value. -/
def infoTail (ts : PyVal) : String :=
  "\x27\x7d, параметры: \x7b\x27from_date\x27: " ++ pyRepr ts ++ "\x7d"

/-- `request_info` before redaction: `'эндпоинт: {url}, заголовки запроса:
{headers}, параметры: {params}'.format(**request_data)`. -/
def requestInfo (tok : String) (ts : PyVal) : String :=
  infoHead ++ tok ++ infoTail ts

/-- `request_info` after `request_info.replace(PRACTICUM_TOKEN,
'PRACTICUM_TOKEN')`: the string that is logged and embedded in every
error message raised by `get_api_answer`. -/
def redactedInfo (tok : String) (ts : PyVal) : String :=
  pyReplace (requestInfo tok ts) tok "PRACTICUM_TOKEN"

/-- The outcome of `requests.get` as seen by `get_api_answer`: either a
response carrying an HTTP status, the text the `HTTPError` of
`raise_for_status` would have, and the body-parse outcome (`.json()`
failures are `requests.JSONDecodeError`, a `RequestException`), or a
`requests.RequestException` (timeout, DNS/connection failure). -/
inductive HttpOutcome : Type where
  | resp (status : Nat) (httpErrText : String) (body : Except String PyVal)
  | reqError (msg : String)

/-- `get_api_answer` from `homework.py`: `raise_for_status` first (an
`HTTPError` for a status `≥ 400` is caught and re-raised as the builtin
`ConnectionError`), then the explicit `== 200` check (other statuses raise
`ConnectionError` directly), then `.json()` (whose `JSONDecodeError` is a
`RequestException`, caught and re-raised as `ConnectionError`). -/
def get_api_answer (tok : String) (ts : PyVal) (o : HttpOutcome) : Except Exc PyVal :=
  match o with
  | .reqError m =>
    .error (.connectionError
      ("Не получен ответ при запросе " ++ redactedInfo tok ts ++ ". Ошибка: " ++ m))
  | .resp status httpErrText body =>
    if 400 ≤ status then
      .error (.connectionError
        ("Получен не верный HTTP ответ при запросе " ++ redactedInfo tok ts ++
         ". Ошибка: " ++ httpErrText))
    else if status = 200 then
      match body with
      | .ok v => .ok v
      | .error m =>
        .error (.connectionError
          ("Не получен ответ при запросе " ++ redactedInfo tok ts ++ ". Ошибка: " ++ m))
    else
      .error (.connectionError
        ("Получен не верный код HTTP ответа при запросе " ++ redactedInfo tok ts ++
         ". Код статуса: " ++ toString status))

/-- The parsed body `get_api_answer` would return, when the transport
succeeded with HTTP status 200 and a parseable body; `none` otherwise. -/
def envApiO : HttpOutcome → Option PyVal
  | .resp status _ (.ok v) => if status = 200 then some v else none
  | .resp _ _ (.error _) => none
  | .reqError _ => none

/-- The `previous_error` slot of the main loop: it starts as the *string*
`''` and is thereafter assigned the caught exception *object*; Python `!=`
between a string and an exception is true, and between two exception
objects it is object identity, modelled by a per-cycle allocation id. -/
inductive ErrSlot : Type where
  | emptyStr
  | excObj (id : Nat) (e : Exc)

/-- `previous_error != error` where `error` is the exception object freshly
allocated in cycle `n`: always true against the initial `''`, and object
identity (id comparison) against a stored exception object. -/
def errNe (slot : ErrSlot) (n : Nat) : Bool :=
  match slot with
  | .emptyStr => true
  | .excObj i _ => !(i == n)

/-- The mutable state of `main`'s loop: `timestamp`, `previous_message`,
`previous_error`.  `timestamp` is a `PyVal` because the code assigns it
`api_answer.get('current_date', timestamp)` without any type check. -/
structure LoopState : Type where
  timestamp : PyVal
  previousMessage : String
  previousError : ErrSlot

/-- The state at loop entry: `timestamp = int(time.time())` (abstracted to
the parameter), `previous_message = ''`, `previous_error = ''`. -/
def initState (t0 : Int) : LoopState :=
  ⟨.pyInt t0, "", .emptyStr⟩

/-- The external events one loop iteration encounters: the transport
outcome and the messaging-channel outcome (used if a send is attempted). -/
structure CycleEnv : Type where
  http : HttpOutcome
  send : Except TgError Unit

/-- As `envApiO`, on a whole cycle environment. -/
def envApi (env : CycleEnv) : Option PyVal :=
  envApiO env.http

/-- The `try` block of one loop iteration, from `homework.py` lines
150-161: fetch, validate, extract the leading homework, parse its status,
dedup against `previous_message`, attempt delivery, and only on success
advance `timestamp` and `previous_message`.  The result carries the new
state, the message passed to `send_message` (if any), and the delivery
outcome.  The catch-all `_` arms are the no-homeworks branch (and shapes
`check_response` has already excluded). -/
def tryBody (tok : String) (env : CycleEnv) (st : LoopState) :
    Except Exc (LoopState × Option String × Bool) :=
  match get_api_answer tok st.timestamp env.http with
  | .error e => .error e
  | .ok api =>
    match check_response api with
    | .error e => .error e
    | .ok _ =>
      match api with
      | .pyDict l =>
        match dictGet l "homeworks" with
        | some (.pyList (h :: _)) =>
          match parse_status h with
          | .error e => .error e
          | .ok message =>
            if st.previousMessage ≠ message then
              if send_message env.send then
                .ok ({ timestamp := dictGetD l "current_date" st.timestamp,
                       previousMessage := message,
                       previousError := st.previousError }, some message, true)
              else .ok (st, some message, false)
            else .ok (st, none, false)
        | _ => .ok (st, none, false)
      | _ => .ok (st, none, false)

/-- Everything observable about one loop iteration. -/
structure CycleResult : Type where
  state : LoopState
  attempted : Option String
  delivered : Bool
  raised : Option Exc

/-- One full loop iteration (cycle number `n`, used as the allocation id of
the exception object possibly created in this cycle): the `try` block, and
on exception the handler of lines 162-167 — format the error into a
message, compare `previous_error != error`, attempt delivery, and on
success store the exception object in `previous_error`. -/
def cycleStep (tok : String) (n : Nat) (env : CycleEnv) (st : LoopState) : CycleResult :=
  match tryBody tok env st with
  | .ok (st', att, del) => ⟨st', att, del, none⟩
  | .error e =>
    let message := "Сбой в работе программы: " ++ excMsg e
    if errNe st.previousError n then
      if send_message env.send then
        ⟨{ st with previousError := .excObj n e }, some message, true, some e⟩
      else ⟨st, some message, false, some e⟩
    else ⟨st, none, false, some e⟩

/-- Run consecutive loop iterations (cycle numbers from `n`) over a list of
per-cycle environments, collecting every iteration's `CycleResult`. -/
def runFrom (tok : String) : Nat → LoopState → List CycleEnv → List CycleResult
  | _, _, [] => []
  | n, st, e :: es =>
    let r := cycleStep tok n e st
    r :: runFrom tok (n + 1) r.state es

/-- How many of the given cycles delivered an error notification (an
exception was caught and `send_message` returned `True`). -/
def errDeliveries (rs : List CycleResult) : Nat :=
  (rs.filter (fun r => r.raised.isSome && r.delivered)).length

/-- Is the value a Python dict? -/
def isPyDict : PyVal → Bool
  | .pyDict _ => true
  | _ => false

/-- A homework record with the `approved` status (end-to-end scenario B of
the spec). -/
def hwApproved : PyVal :=
  .pyDict [("homework_name", .pyStr "hw1"), ("status", .pyStr "approved")]

/-- A well-shaped API answer that lacks the `current_date` key. -/
def apiNoDate : PyVal := .pyDict [("homeworks", .pyList [hwApproved])]

/-- A well-shaped API answer carrying `current_date = d`. -/
def apiWithDate (d : Int) : PyVal :=
  .pyDict [("homeworks", .pyList [hwApproved]), ("current_date", .pyInt d)]

/-- A cycle environment: HTTP 200 with the given body, Telegram delivery
succeeding. -/
def okEnv (api : PyVal) : CycleEnv := ⟨.resp 200 "" (.ok api), .ok ()⟩

/-- A cycle environment whose fetch fails with a `RequestException` of text
`boom`, Telegram delivery succeeding. -/
def envBoom : CycleEnv := ⟨.reqError "boom", .ok ()⟩

/-- C5: for every homework dict containing `homework_name` and a `status`
with a configured verdict, `parse_status` returns exactly the fixed template
interpolating the (stringified) name and the verdict text; for a `status`
outside the verdict table it raises `KeyError` (undocumented status). -/
theorem C5_parse_status (l : List (String × PyVal)) (nv sv : PyVal) (verdict : String)
    (hn : dictGet l "homework_name" = some nv)
    (hs : dictGet l "status" = some sv) :
    (verdictOf sv = some verdict →
      parse_status (.pyDict l) =
        .ok ("Изменился статус проверки работы \"" ++ pyToStr nv ++ "\". " ++ verdict)) ∧
    (verdictOf sv = none →
      parse_status (.pyDict l) = .error (.keyError "Недокументированный статус работы.")) := by
  constructor <;> intro hv <;> simp [parse_status, hn, hs, hv]

/-- Witness for C5 at end-to-end scenario B's homework record. -/
theorem C5_parse_status_witness :
    parse_status (.pyDict [("homework_name", .pyStr "hw1"), ("status", .pyStr "approved")]) =
      .ok ("Изменился статус проверки работы \"" ++ pyToStr (.pyStr "hw1") ++ "\". " ++
        "Работа проверена: ревьюеру всё понравилось. Ура!") :=
  (C5_parse_status [("homework_name", .pyStr "hw1"), ("status", .pyStr "approved")]
    (.pyStr "hw1") (.pyStr "approved")
    "Работа проверена: ревьюеру всё понравилось. Ура!" rfl rfl).1 rfl

/-- C7: `send_message` is total (never raises): it returns `True` exactly
when the underlying channel send succeeds, `False` exactly when the channel
raises a `TelegramError`. -/
theorem C7_send_message (o : Except TgError Unit) :
    (send_message o = true ↔ o = .ok ()) ∧
    (send_message o = false ↔ ∃ e : TgError, o = .error e) := by
  cases o with
  | ok u => cases u; simp [send_message]
  | error e => simp [send_message]

/-- Witness for C7: a channel success returns `True`, a channel error
returns `False`. -/
theorem C7_send_message_witness :
    send_message (.ok ()) = true ∧ send_message (.error ("e" : TgError)) = false :=
  ⟨(C7_send_message (.ok ())).1.mpr rfl, (C7_send_message (.error "e")).2.mpr ⟨"e", rfl⟩⟩

/-- C10: `parse_status` raises `TypeError` on every argument that is not a
dict, before any key lookup. -/
theorem C10_parse_status_nondict (v : PyVal) (h : isPyDict v = false) :
    parse_status v = .error (.typeError "Тип переданного аргумента не словарь.") := by
  cases v <;> simp_all [isPyDict, parse_status]

/-- Witness for C10 on a string argument. -/
theorem C10_parse_status_nondict_witness :
    parse_status (.pyStr "x") = .error (.typeError "Тип переданного аргумента не словарь.") :=
  C10_parse_status_nondict _ rfl

/-- C2, counterexample to the claim as stated: a response without
`current_date` (and one with a non-integer `current_date`) passes
`check_response` without raising, and such a response IS consumed by the
rest of the cycle: the cycle raises nothing, delivers the status message,
and falls back to the old cursor for the missing `current_date`. -/
theorem C2_counterexample :
    check_response (.pyDict [("homeworks", .pyList [])]) = .ok () ∧
    check_response (.pyDict [("homeworks", .pyList []), ("current_date", .pyStr "oops")]) = .ok () ∧
    (cycleStep "tok" 0 (okEnv apiNoDate) (initState 7)).raised = none ∧
    (cycleStep "tok" 0 (okEnv apiNoDate) (initState 7)).delivered = true ∧
    (cycleStep "tok" 0 (okEnv apiNoDate) (initState 7)).state.timestamp = .pyInt 7 :=
  ⟨rfl, rfl, rfl, rfl, rfl⟩

/-- C2 amended: `check_response` validates only that the response is a dict
whose `homeworks` value is a list — it accepts exactly those responses,
performing no `current_date` check whatsoever (a missing `homeworks` key is
a `KeyError`). -/
theorem C2_amended (r : PyVal) :
    (check_response r = .ok () ↔
      ∃ l hs, r = .pyDict l ∧ dictGet l "homeworks" = some (.pyList hs)) ∧
    (∀ l, r = .pyDict l → dictGet l "homeworks" = none →
      check_response r =
        .error (.keyError "В ответе API отсутствует ключ: `homeworks`.")) := by
  constructor
  · cases r with
    | pyDict l =>
      cases hg : dictGet l "homeworks" with
      | none => simp [check_response, hg]
      | some v => cases v <;> simp [check_response, hg]
    | pyInt i => simp [check_response]
    | pyStr s => simp [check_response]
    | pyNone => simp [check_response]
    | pyList l => simp [check_response]
  · intro l hl hg
    subst hl
    simp [check_response, hg]

/-- Witness for C2 amended: a `homeworks`-list dict with no `current_date`
is accepted. -/
theorem C2_amended_witness :
    check_response (.pyDict [("homeworks", .pyList [])]) = .ok () :=
  (C2_amended _).1.mpr ⟨_, _, rfl, rfl⟩

/-- `api_answer.get('current_date', d)` on an arbitrary value (the default
branch is unreachable after `check_response`). -/
def apiDate (api : PyVal) (d : PyVal) : PyVal :=
  match api with
  | .pyDict l => dictGetD l "current_date" d
  | _ => d

/-- `get_api_answer` returns a value exactly when the transport produced an
HTTP 200 response with a parseable body, and then returns that body. -/
theorem get_api_answer_ok_iff (tok : String) (ts : PyVal) (o : HttpOutcome) (v : PyVal) :
    get_api_answer tok ts o = .ok v ↔ envApiO o = some v := by
  cases o with
  | reqError m => simp [get_api_answer, envApiO]
  | resp status et body =>
    by_cases h4 : 400 ≤ status
    · have h2 : status ≠ 200 := by omega
      cases body <;> simp [get_api_answer, envApiO, h4, h2]
    · by_cases h2 : status = 200
      · subst h2
        cases body <;> simp [get_api_answer, envApiO, h4]
      · cases body <;> simp [get_api_answer, envApiO, h4, h2]

/-- Exhaustive description of the `try`-block outcomes that do not raise:
either a cycle that changes nothing and delivers nothing (no homeworks, a
repeated message, or a failed send), or a delivered *new* message, in which
case the response was an HTTP-200 dict and the new state advances the
cursor to its `current_date` (defaulting to the old cursor) and stores the
message in the dedup slot. -/
theorem tryBody_ok_cases (tok : String) (env : CycleEnv) (st : LoopState)
    (st' : LoopState) (att : Option String) (del : Bool)
    (h : tryBody tok env st = .ok (st', att, del)) :
    (st' = st ∧ del = false) ∨
    (∃ l message, envApi env = some (.pyDict l) ∧ att = some message ∧ del = true ∧
      st.previousMessage ≠ message ∧
      st' = { timestamp := dictGetD l "current_date" st.timestamp,
              previousMessage := message, previousError := st.previousError }) := by
  cases hg : get_api_answer tok st.timestamp env.http with
  | error e => simp [tryBody, hg] at h
  | ok api =>
    cases hc : check_response api with
    | error e => simp [tryBody, hg, hc] at h
    | ok u =>
      cases api with
      | pyDict l =>
        cases hh : dictGet l "homeworks" with
        | none =>
          have e : tryBody tok env st = .ok (st, none, false) := by
            simp [tryBody, hg, hc, hh]
          rw [e] at h
          simp only [Except.ok.injEq, Prod.mk.injEq] at h
          obtain ⟨rfl, rfl, rfl⟩ := h
          exact Or.inl ⟨rfl, rfl⟩
        | some hwv =>
          cases hwv with
          | pyList hs =>
            cases hs with
            | nil =>
              have e : tryBody tok env st = .ok (st, none, false) := by
                simp [tryBody, hg, hc, hh]
              rw [e] at h
              simp only [Except.ok.injEq, Prod.mk.injEq] at h
              obtain ⟨rfl, rfl, rfl⟩ := h
              exact Or.inl ⟨rfl, rfl⟩
            | cons hw tl =>
              cases hp : parse_status hw with
              | error e => simp [tryBody, hg, hc, hh, hp] at h
              | ok message =>
                by_cases hm : st.previousMessage = message
                · have e : tryBody tok env st = .ok (st, none, false) := by
                    simp [tryBody, hg, hc, hh, hp, hm]
                  rw [e] at h
                  simp only [Except.ok.injEq, Prod.mk.injEq] at h
                  obtain ⟨rfl, rfl, rfl⟩ := h
                  exact Or.inl ⟨rfl, rfl⟩
                · cases hsend : send_message env.send with
                  | true =>
                    have e : tryBody tok env st =
                        .ok ({ timestamp := dictGetD l "current_date" st.timestamp,
                               previousMessage := message,
                               previousError := st.previousError },
                             some message, true) := by
                      simp [tryBody, hg, hc, hh, hp, hm, hsend]
                    rw [e] at h
                    simp only [Except.ok.injEq, Prod.mk.injEq] at h
                    obtain ⟨rfl, rfl, rfl⟩ := h
                    refine Or.inr ⟨l, message, ?_, rfl, rfl, hm, rfl⟩
                    exact (get_api_answer_ok_iff tok st.timestamp env.http _).mp hg
                  | false =>
                    have e : tryBody tok env st = .ok (st, some message, false) := by
                      simp [tryBody, hg, hc, hh, hp, hm, hsend]
                    rw [e] at h
                    simp only [Except.ok.injEq, Prod.mk.injEq] at h
                    obtain ⟨rfl, rfl, rfl⟩ := h
                    exact Or.inl ⟨rfl, rfl⟩
          | pyInt i =>
            have e : tryBody tok env st = .ok (st, none, false) := by
              simp [tryBody, hg, hc, hh]
            rw [e] at h
            simp only [Except.ok.injEq, Prod.mk.injEq] at h
            obtain ⟨rfl, rfl, rfl⟩ := h
            exact Or.inl ⟨rfl, rfl⟩
          | pyStr s =>
            have e : tryBody tok env st = .ok (st, none, false) := by
              simp [tryBody, hg, hc, hh]
            rw [e] at h
            simp only [Except.ok.injEq, Prod.mk.injEq] at h
            obtain ⟨rfl, rfl, rfl⟩ := h
            exact Or.inl ⟨rfl, rfl⟩
          | pyNone =>
            have e : tryBody tok env st = .ok (st, none, false) := by
              simp [tryBody, hg, hc, hh]
            rw [e] at h
            simp only [Except.ok.injEq, Prod.mk.injEq] at h
            obtain ⟨rfl, rfl, rfl⟩ := h
            exact Or.inl ⟨rfl, rfl⟩
          | pyDict l2 =>
            have e : tryBody tok env st = .ok (st, none, false) := by
              simp [tryBody, hg, hc, hh]
            rw [e] at h
            simp only [Except.ok.injEq, Prod.mk.injEq] at h
            obtain ⟨rfl, rfl, rfl⟩ := h
            exact Or.inl ⟨rfl, rfl⟩
      | pyInt i =>
        have e : tryBody tok env st = .ok (st, none, false) := by simp [tryBody, hg, hc]
        rw [e] at h
        simp only [Except.ok.injEq, Prod.mk.injEq] at h
        obtain ⟨rfl, rfl, rfl⟩ := h
        exact Or.inl ⟨rfl, rfl⟩
      | pyStr s =>
        have e : tryBody tok env st = .ok (st, none, false) := by simp [tryBody, hg, hc]
        rw [e] at h
        simp only [Except.ok.injEq, Prod.mk.injEq] at h
        obtain ⟨rfl, rfl, rfl⟩ := h
        exact Or.inl ⟨rfl, rfl⟩
      | pyNone =>
        have e : tryBody tok env st = .ok (st, none, false) := by simp [tryBody, hg, hc]
        rw [e] at h
        simp only [Except.ok.injEq, Prod.mk.injEq] at h
        obtain ⟨rfl, rfl, rfl⟩ := h
        exact Or.inl ⟨rfl, rfl⟩
      | pyList l2 =>
        have e : tryBody tok env st = .ok (st, none, false) := by simp [tryBody, hg, hc]
        rw [e] at h
        simp only [Except.ok.injEq, Prod.mk.injEq] at h
        obtain ⟨rfl, rfl, rfl⟩ := h
        exact Or.inl ⟨rfl, rfl⟩

/-- On an exception, the handler of lines 162-167 never touches the
cursor. -/
theorem cycleStep_err_timestamp (tok : String) (n : Nat) (env : CycleEnv) (st : LoopState)
    (e : Exc) (hg : tryBody tok env st = .error e) :
    (cycleStep tok n env st).state.timestamp = st.timestamp := by
  simp only [cycleStep, hg]
  split
  · split <;> rfl
  · rfl

/-- On an exception, the cycle records the raised exception. -/
theorem cycleStep_err_raised (tok : String) (n : Nat) (env : CycleEnv) (st : LoopState)
    (e : Exc) (hg : tryBody tok env st = .error e) :
    (cycleStep tok n env st).raised = some e := by
  simp only [cycleStep, hg]
  split
  · split <;> rfl
  · rfl

/-- Without an exception, the cycle is exactly the `try`-block outcome. -/
theorem cycleStep_of_ok (tok : String) (n : Nat) (env : CycleEnv) (st : LoopState)
    (st' : LoopState) (att : Option String) (del : Bool)
    (hg : tryBody tok env st = .ok (st', att, del)) :
    cycleStep tok n env st =
      { state := st', attempted := att, delivered := del, raised := none } := by
  simp [cycleStep, hg]

/-- C3 amended: across one loop iteration the cursor is *assigned* (set to
the response's `current_date`, defaulting to the old cursor when absent)
exactly on a cycle that successfully delivers a message differing from the
last delivered one; hence its value can change only on such a cycle, and it
is unchanged on a no-delivery cycle, a failed-delivery cycle, a no-attempt
cycle and an error cycle.  (The original "if and only if" fails: a
successful new delivery whose `current_date` equals the old cursor — or is
absent — leaves the cursor's value unchanged.) -/
theorem C3_amended (tok : String) (n : Nat) (env : CycleEnv) (st : LoopState) :
    ((cycleStep tok n env st).state.timestamp ≠ st.timestamp →
      (cycleStep tok n env st).raised = none ∧
      (cycleStep tok n env st).delivered = true ∧
      ∃ m, (cycleStep tok n env st).attempted = some m ∧ st.previousMessage ≠ m) ∧
    ((cycleStep tok n env st).raised.isSome = true →
      (cycleStep tok n env st).state.timestamp = st.timestamp) ∧
    ((cycleStep tok n env st).delivered = false →
      (cycleStep tok n env st).state.timestamp = st.timestamp) ∧
    ((cycleStep tok n env st).attempted = none →
      (cycleStep tok n env st).state.timestamp = st.timestamp) ∧
    (∀ api, (cycleStep tok n env st).raised = none →
      (cycleStep tok n env st).delivered = true → envApi env = some api →
      (cycleStep tok n env st).state.timestamp = apiDate api st.timestamp) := by
  cases hg : tryBody tok env st with
  | error e =>
    have hts := cycleStep_err_timestamp tok n env st e hg
    have hr := cycleStep_err_raised tok n env st e hg
    refine ⟨?_, ?_, ?_, ?_, ?_⟩
    · intro hne; exact absurd hts hne
    · intro _; exact hts
    · intro _; exact hts
    · intro _; exact hts
    · intro api hnone _ _; rw [hr] at hnone; exact absurd hnone (by simp)
  | ok t =>
    obtain ⟨st', att, del⟩ := t
    have hc := cycleStep_of_ok tok n env st st' att del hg
    rcases tryBody_ok_cases tok env st st' att del hg with
      ⟨rfl, rfl⟩ | ⟨l, m, henv, rfl, rfl, hm, rfl⟩
    · rw [hc]
      refine ⟨?_, ?_, ?_, ?_, ?_⟩
      · intro hne; exact absurd rfl hne
      · intro _; rfl
      · intro _; rfl
      · intro _; rfl
      · intro api _ hdel _; exact absurd hdel (by simp)
    · rw [hc]
      refine ⟨?_, ?_, ?_, ?_, ?_⟩
      · intro _; exact ⟨rfl, rfl, m, rfl, hm⟩
      · intro hs; exact absurd hs (by simp)
      · intro hdel; exact absurd hdel (by simp)
      · intro hatt; exact absurd hatt (by simp)
      · intro api _ _ hapi
        rw [henv] at hapi
        injection hapi with hapi
        rw [← hapi]
        rfl

/-- A cycle environment delivering scenario B's response with
`current_date = 1000`. -/
def env1000 : CycleEnv := okEnv (apiWithDate 1000)

/-- C3, counterexample to the claim as stated: starting from cursor 1000, a
cycle that produces a *new* status message and delivers it successfully,
yet whose response carries `current_date = 1000`, leaves the cursor's value
unchanged — refuting the "changes if" direction of the claimed
equivalence. -/
theorem C3_counterexample :
    (cycleStep "tok" 0 env1000 (initState 1000)).raised = none ∧
    (cycleStep "tok" 0 env1000 (initState 1000)).delivered = true ∧
    (cycleStep "tok" 0 env1000 (initState 1000)).attempted =
      some "Изменился статус проверки работы \"hw1\". Работа проверена: ревьюеру всё понравилось. Ура!" ∧
    (initState 1000).previousMessage ≠
      "Изменился статус проверки работы \"hw1\". Работа проверена: ревьюеру всё понравилось. Ура!" ∧
    ¬ (cycleStep "tok" 0 env1000 (initState 1000)).state.timestamp ≠
        (initState 1000).timestamp :=
  ⟨rfl, rfl, rfl, by decide, fun hne => hne rfl⟩

/-- Witness for C3 amended: an error cycle leaves the cursor unchanged. -/
theorem C3_amended_witness :
    (cycleStep "tok" 0 envBoom (initState 5)).state.timestamp = (initState 5).timestamp :=
  (C3_amended "tok" 0 envBoom (initState 5)).2.1 rfl

/-- C1, evaluation of the code at the failing input: two consecutive cycles
whose fetch raises a `ConnectionError` with the *identical* error text (the
cursor is unchanged between them, so the formatted messages coincide) both
result in a delivered error notification — two deliveries, not one.  The
dedup comparison `previous_error != error` compares the stored exception
*object* with the freshly raised one (always unequal), not the error
string. -/
theorem C1_code_evaluation :
    ∃ m : String,
      (runFrom "secret" 0 (initState 100) [envBoom, envBoom]).map
        (fun r => (r.attempted, r.delivered, r.raised.isSome)) =
        [(some m, true, true), (some m, true, true)] ∧
      errDeliveries (runFrom "secret" 0 (initState 100) [envBoom, envBoom]) = 2 :=
  ⟨_, rfl, rfl⟩

/-- C6: after a cycle successfully delivers a new status message `m`, a
following cycle whose response parses to the same message `m` makes no
second delivery attempt and leaves the whole loop state (cursor and both
dedup slots) unchanged — exactly one delivery attempt across the two
cycles. -/
theorem C6_idempotent_delivery (tok : String) (n : Nat) (st : LoopState)
    (env1 env2 : CycleEnv) (l1 l2 : List (String × PyVal)) (hw1 hw2 : PyVal)
    (tl1 tl2 : List PyVal) (m : String)
    (he1 : envApi env1 = some (.pyDict l1))
    (hh1 : dictGet l1 "homeworks" = some (.pyList (hw1 :: tl1)))
    (hp1 : parse_status hw1 = .ok m)
    (hm : st.previousMessage ≠ m)
    (hs1 : env1.send = .ok ())
    (he2 : envApi env2 = some (.pyDict l2))
    (hh2 : dictGet l2 "homeworks" = some (.pyList (hw2 :: tl2)))
    (hp2 : parse_status hw2 = .ok m) :
    (cycleStep tok n env1 st).attempted = some m ∧
    (cycleStep tok n env1 st).delivered = true ∧
    (cycleStep tok (n + 1) env2 (cycleStep tok n env1 st).state).attempted = none ∧
    (cycleStep tok (n + 1) env2 (cycleStep tok n env1 st).state).delivered = false ∧
    (cycleStep tok (n + 1) env2 (cycleStep tok n env1 st).state).state =
      (cycleStep tok n env1 st).state := by
  have hg1 : get_api_answer tok st.timestamp env1.http = .ok (.pyDict l1) :=
    (get_api_answer_ok_iff tok st.timestamp env1.http _).mpr he1
  have hcr1 : check_response (.pyDict l1) = .ok () := by simp [check_response, hh1]
  have ht1 : tryBody tok env1 st =
      .ok ({ timestamp := dictGetD l1 "current_date" st.timestamp,
             previousMessage := m, previousError := st.previousError },
           some m, true) := by
    simp [tryBody, hg1, hcr1, hh1, hp1, hm, hs1, send_message]
  have hc1 := cycleStep_of_ok tok n env1 st _ _ _ ht1
  have hg2 : get_api_answer tok (dictGetD l1 "current_date" st.timestamp) env2.http =
      .ok (.pyDict l2) :=
    (get_api_answer_ok_iff tok _ env2.http _).mpr he2
  have hcr2 : check_response (.pyDict l2) = .ok () := by simp [check_response, hh2]
  have ht2 : tryBody tok env2
      { timestamp := dictGetD l1 "current_date" st.timestamp,
        previousMessage := m, previousError := st.previousError } =
      .ok ({ timestamp := dictGetD l1 "current_date" st.timestamp,
             previousMessage := m, previousError := st.previousError }, none, false) := by
    simp [tryBody, hg2, hcr2, hh2, hp2]
  have hc2 := cycleStep_of_ok tok (n + 1) env2 _ _ _ _ ht2
  simp only [hc1]
  simp only [hc2]
  simp

/-- Witness for C6 at end-to-end scenarios B then C: same `approved`
response twice, one delivery, second cycle inert. -/
theorem C6_idempotent_delivery_witness :
    (cycleStep "tok" 0 (okEnv (apiWithDate 2000)) (initState 1000)).attempted =
      some "Изменился статус проверки работы \"hw1\". Работа проверена: ревьюеру всё понравилось. Ура!" ∧
    (cycleStep "tok" 0 (okEnv (apiWithDate 2000)) (initState 1000)).delivered = true ∧
    (cycleStep "tok" 1 (okEnv (apiWithDate 2000))
        (cycleStep "tok" 0 (okEnv (apiWithDate 2000)) (initState 1000)).state).attempted =
      none ∧
    (cycleStep "tok" 1 (okEnv (apiWithDate 2000))
        (cycleStep "tok" 0 (okEnv (apiWithDate 2000)) (initState 1000)).state).delivered =
      false ∧
    (cycleStep "tok" 1 (okEnv (apiWithDate 2000))
        (cycleStep "tok" 0 (okEnv (apiWithDate 2000)) (initState 1000)).state).state =
      (cycleStep "tok" 0 (okEnv (apiWithDate 2000)) (initState 1000)).state :=
  C6_idempotent_delivery "tok" 0 (initState 1000)
    (okEnv (apiWithDate 2000)) (okEnv (apiWithDate 2000))
    [("homeworks", .pyList [hwApproved]), ("current_date", .pyInt 2000)]
    [("homeworks", .pyList [hwApproved]), ("current_date", .pyInt 2000)]
    hwApproved hwApproved [] []
    "Изменился статус проверки работы \"hw1\". Работа проверена: ревьюеру всё понравилось. Ура!"
    rfl rfl rfl (by decide) rfl rfl rfl rfl

/-- The order in which the loop's cursor evolves: unchanged, or an integer
step `x ≤ y` (the only two ways a cycle moves the cursor forward). -/
def cursorLe (a b : PyVal) : Prop :=
  a = b ∨ ∃ x y : Int, a = .pyInt x ∧ b = .pyInt y ∧ x ≤ y

/-- `cursorLe` is reflexive. -/
theorem cursorLe_refl (a : PyVal) : cursorLe a a := Or.inl rfl

/-- `cursorLe` is transitive. -/
theorem cursorLe_trans {a b c : PyVal} (h1 : cursorLe a b) (h2 : cursorLe b c) :
    cursorLe a c := by
  rcases h1 with rfl | ⟨x, y, rfl, rfl, hxy⟩
  · exact h2
  · rcases h2 with rfl | ⟨x', y', hx', rfl, h'⟩
    · exact Or.inr ⟨x, y, rfl, rfl, hxy⟩
    · injection hx' with e
      subst e
      exact Or.inr ⟨x, y', rfl, rfl, le_trans hxy h'⟩

/-- The per-cycle hypothesis of the amended C4: *if* this cycle's response
is consumable (HTTP 200, parseable body), its `current_date` (as the value
`get('current_date', cur)` would produce) is an integer at least the
current cursor (or leaves it untouched). -/
def stepOk (cur : PyVal) (env : CycleEnv) : Prop :=
  match envApi env with
  | some api => cursorLe cur (apiDate api cur)
  | none => True

/-- Under `stepOk`, one cycle moves the cursor along `cursorLe`. -/
theorem cycleStep_cursorLe (tok : String) (n : Nat) (env : CycleEnv) (st : LoopState)
    (h : stepOk st.timestamp env) :
    cursorLe st.timestamp (cycleStep tok n env st).state.timestamp := by
  cases hg : tryBody tok env st with
  | error e => rw [cycleStep_err_timestamp tok n env st e hg]; exact Or.inl rfl
  | ok t =>
    obtain ⟨st', att, del⟩ := t
    rw [cycleStep_of_ok tok n env st _ _ _ hg]
    rcases tryBody_ok_cases tok env st st' att del hg with
      ⟨rfl, _⟩ | ⟨l, m, henv, _, _, _, rfl⟩
    · exact Or.inl rfl
    · have h' : cursorLe st.timestamp (apiDate (.pyDict l) st.timestamp) := by
        unfold stepOk at h
        rw [henv] at h
        exact h
      exact h'

/-- The amended C4's hypothesis over a whole run: every cycle's environment
satisfies `stepOk` relative to the cursor the loop holds when it reaches
that cycle. -/
def envsOk (tok : String) : Nat → LoopState → List CycleEnv → Prop
  | _, _, [] => True
  | n, st, e :: es =>
    stepOk st.timestamp e ∧ envsOk tok (n + 1) (cycleStep tok n e st).state es

/-- The successive cursor values of a run: the starting cursor followed by
the cursor after each cycle. -/
def cursorsFrom (tok : String) (n : Nat) (st : LoopState) (envs : List CycleEnv) :
    List PyVal :=
  st.timestamp :: (runFrom tok n st envs).map (fun r => r.state.timestamp)

/-- Unfolding `cursorsFrom` over one cycle. -/
theorem cursorsFrom_cons (tok : String) (n : Nat) (st : LoopState) (e : CycleEnv)
    (es : List CycleEnv) :
    cursorsFrom tok n st (e :: es) =
      st.timestamp :: cursorsFrom tok (n + 1) (cycleStep tok n e st).state es := by
  simp [cursorsFrom, runFrom]

/-- Every cursor value of a well-behaved run dominates the starting
cursor. -/
theorem cursorsFrom_lb (tok : String) :
    ∀ (n : Nat) (st : LoopState) (envs : List CycleEnv), envsOk tok n st envs →
      ∀ x ∈ cursorsFrom tok n st envs, cursorLe st.timestamp x := by
  intro n st envs
  induction envs generalizing n st with
  | nil =>
    intro _ x hx
    simp [cursorsFrom, runFrom] at hx
    subst hx
    exact Or.inl rfl
  | cons e es ih =>
    intro h x hx
    rw [cursorsFrom_cons] at hx
    rcases List.mem_cons.mp hx with rfl | hx'
    · exact Or.inl rfl
    · exact cursorLe_trans (cycleStep_cursorLe tok n e st h.1) (ih (n + 1) _ h.2 x hx')

/-- C4 amended: the cursor is non-decreasing across the process lifetime
*provided* every consumed response's `current_date` is an integer at least
the cursor held when that response arrives (`envsOk`); the code itself does
not enforce this — it assigns whatever `current_date` the response carries,
so a smaller `current_date` moves the cursor backwards
(see the counterexample). -/
theorem C4_amended (tok : String) (n : Nat) (st : LoopState) (envs : List CycleEnv)
    (h : envsOk tok n st envs) :
    List.Pairwise cursorLe (cursorsFrom tok n st envs) := by
  induction envs generalizing n st with
  | nil => simp [cursorsFrom, runFrom]
  | cons e es ih =>
    rw [cursorsFrom_cons]
    refine List.pairwise_cons.mpr ⟨?_, ih (n + 1) _ h.2⟩
    intro y hy
    exact cursorLe_trans (cycleStep_cursorLe tok n e st h.1)
      (cursorsFrom_lb tok (n + 1) _ es h.2 y hy)

/-- C4, counterexample to the claim as stated: starting from cursor 100, a
single cycle whose (new, successfully delivered) response carries
`current_date = 0` moves the cursor from `100` down to `0` — the cursor is
not non-decreasing over arbitrary response sequences. -/
theorem C4_counterexample :
    (initState 100).timestamp = .pyInt 100 ∧
    (cycleStep "tok" 0 (okEnv (apiWithDate 0)) (initState 100)).state.timestamp = .pyInt 0 ∧
    ¬ cursorLe (initState 100).timestamp
        (cycleStep "tok" 0 (okEnv (apiWithDate 0)) (initState 100)).state.timestamp := by
  refine ⟨rfl, rfl, ?_⟩
  rintro (h | ⟨x, y, hx, hy, hle⟩)
  · have h' : (PyVal.pyInt 100 : PyVal) = .pyInt 0 := h
    injection h' with e
    omega
  · have hx' : (PyVal.pyInt 100 : PyVal) = .pyInt x := hx
    have hy' : (PyVal.pyInt 0 : PyVal) = .pyInt y := hy
    injection hx' with ex
    injection hy' with ey
    omega

/-- A cycle environment advancing the cursor to 200. -/
def envStep200 : CycleEnv := okEnv (apiWithDate 200)

/-- Witness for C4 amended: a delivered advance to 200 followed by an error
cycle yields a pairwise `cursorLe`-monotone cursor trace. -/
theorem C4_amended_witness :
    List.Pairwise cursorLe (cursorsFrom "tok" 0 (initState 100) [envStep200, envBoom]) :=
  C4_amended "tok" 0 (initState 100) [envStep200, envBoom]
    ⟨Or.inr ⟨100, 200, rfl, rfl, by omega⟩, trivial, trivial⟩

/-- `toList` distributes over string append. -/
theorem strToList_append (a b : String) : (a ++ b).toList = a.toList ++ b.toList :=
  String.data_append a b

/-- A pattern starts any list it is appended in front of. -/
theorem leadsWith_append_self (t x : List Char) : leadsWith t (t ++ x) = true := by
  induction t with
  | nil => rfl
  | cons a as ih => simp [leadsWith, ih]

/-- The empty pattern occurs in every list. -/
theorem occursIn_nilPat (s : List Char) : occursIn [] s = true := by
  induction s with
  | nil => rfl
  | cons c cs ih => simp [occursIn, leadsWith]

/-- A pattern occurs in any list in which it is literally embedded. -/
theorem occursIn_append_self (t B : List Char) :
    ∀ A : List Char, occursIn t (A ++ (t ++ B)) = true := by
  intro A
  induction A with
  | nil =>
    cases t with
    | nil => exact occursIn_nilPat B
    | cons c cs =>
      simp only [List.nil_append, occursIn, Bool.or_eq_true]
      exact Or.inl (leadsWith_append_self (c :: cs) B)
  | cons a as ih => simp [occursIn, ih]

/-- The request description occurs as a substring of any string of the
shape `a ++ t ++ b ++ c`. -/
theorem strOccursIn_embed4 (t a b c : String) : strOccursIn t (a ++ t ++ b ++ c) = true := by
  unfold strOccursIn
  have e : (a ++ t ++ b ++ c).toList = a.toList ++ (t.toList ++ (b.toList ++ c.toList)) := by
    simp [strToList_append]
  rw [e]
  exact occursIn_append_self t.toList (b.toList ++ c.toList) a.toList

/-- Dropping the length of a leading segment returns the rest. -/
theorem drop_len_append (l1 l2 : List Char) : List.drop l1.length (l1 ++ l2) = l2 := by
  induction l1 with
  | nil => rfl
  | cons a as ih => exact ih

/-- No occurrence of the pattern `t` starts at any position of `A` when `A`
is followed by `tail` (checked against the whole remaining text). -/
def noEarlyMatch (t : List Char) : List Char → List Char → Bool
  | [], _ => true
  | c :: cs, tail => !leadsWith t (c :: (cs ++ tail)) && noEarlyMatch t cs tail

/-- Replacement walks past a prefix in which no match starts. -/
theorem repF_skip (t r : List Char) :
    ∀ (A tail : List Char) (fuel : Nat), noEarlyMatch t A tail = true →
      repF t r (A.length + fuel) (A ++ tail) = A ++ repF t r fuel tail := by
  intro A
  induction A with
  | nil => intro tail fuel _; simp
  | cons c cs ih =>
    intro tail fuel h
    simp only [noEarlyMatch, Bool.and_eq_true, Bool.not_eq_true'] at h
    obtain ⟨h1, h2⟩ := h
    have e : (c :: cs).length + fuel = (cs.length + fuel) + 1 := by
      simp [List.length_cons]
      omega
    rw [e, List.cons_append]
    rw [show repF t r ((cs.length + fuel) + 1) (c :: (cs ++ tail)) =
        c :: repF t r (cs.length + fuel) (cs ++ tail) from by simp [repF, h1]]
    rw [ih tail fuel h2, List.cons_append]

/-- Replacement substitutes a leading occurrence of the (non-empty)
pattern. -/
theorem repF_hit (t r B : List Char) (hne : t ≠ []) (fuel : Nat) :
    repF t r (fuel + 1) (t ++ B) = r ++ repF t r fuel B := by
  cases t with
  | nil => exact absurd rfl hne
  | cons c cs =>
    rw [List.cons_append]
    have hl : leadsWith (c :: cs) (c :: (cs ++ B)) = true := leadsWith_append_self (c :: cs) B
    rw [show repF (c :: cs) r (fuel + 1) (c :: (cs ++ B)) =
        r ++ repF (c :: cs) r fuel (List.drop ((c :: cs).length - 1) (cs ++ B)) from by
      simp [repF, hl]]
    congr 1
    rw [show (c :: cs).length - 1 = cs.length from by simp]
    rw [drop_len_append]

/-- Replacement leaves a text without occurrences untouched, for any
fuel. -/
theorem repF_none (t r : List Char) :
    ∀ (fuel : Nat) (B : List Char), occursIn t B = false → repF t r fuel B = B := by
  intro fuel
  induction fuel with
  | zero => intro B _; cases B <;> rfl
  | succ f ih =>
    intro B h
    cases B with
    | nil => rfl
    | cons c cs =>
      simp only [occursIn, Bool.or_eq_false_iff] at h
      obtain ⟨h1, h2⟩ := h
      simp only [repF, h1, Bool.false_and]
      rw [if_neg (by simp)]
      rw [ih cs h2]

set_option maxRecDepth 8000 in
/-- C9, counterexample to the claim as stated: for the non-empty token
`TOKEN`, the redacted request description still contains the token — the
replacement text `PRACTICUM_TOKEN` itself contains `TOKEN` — and the token
also leaks into the message of the raised `ConnectionError`. -/
theorem C9_counterexample :
    "TOKEN" ≠ "" ∧
    strOccursIn "TOKEN" (redactedInfo "TOKEN" (.pyInt 0)) = true ∧
    ∃ m, get_api_answer "TOKEN" (.pyInt 0) (.reqError "x") = .error (.connectionError m) ∧
      strOccursIn "TOKEN" m = true :=
  ⟨by decide, rfl, ⟨_, rfl, rfl⟩⟩

/-- C9 amended: for every cursor value and non-empty token, the redaction
replaces the token's occurrence by the placeholder, and the redacted
description does not contain the token, *provided* the token does not
collide with the surrounding text: no occurrence of the token starts inside
the literal text before it, the token does not occur in the text after it,
and the token is not a substring of the description with the placeholder
substituted (the counterexample's token `TOKEN` violates the last
condition, being a substring of the placeholder `PRACTICUM_TOKEN`).  The
unredacted description always contains the token. -/
theorem C9_amended (tok : String) (ts : PyVal)
    (hne : tok.toList ≠ [])
    (h1 : noEarlyMatch tok.toList infoHead.toList (tok.toList ++ (infoTail ts).toList) = true)
    (h2 : occursIn tok.toList (infoTail ts).toList = false)
    (h3 : occursIn tok.toList
        (infoHead.toList ++ ("PRACTICUM_TOKEN".toList ++ (infoTail ts).toList)) = false) :
    strOccursIn tok (requestInfo tok ts) = true ∧
    strOccursIn tok (redactedInfo tok ts) = false := by
  have hfull : (requestInfo tok ts).toList =
      infoHead.toList ++ (tok.toList ++ (infoTail ts).toList) := by
    simp [requestInfo, strToList_append]
  constructor
  · unfold strOccursIn
    rw [hfull]
    exact occursIn_append_self tok.toList (infoTail ts).toList infoHead.toList
  · have hred : (redactedInfo tok ts).toList =
        infoHead.toList ++ ("PRACTICUM_TOKEN".toList ++ (infoTail ts).toList) := by
      show repF tok.toList "PRACTICUM_TOKEN".toList
          (requestInfo tok ts).toList.length (requestInfo tok ts).toList = _
      rw [hfull]
      rw [show (infoHead.toList ++ (tok.toList ++ (infoTail ts).toList)).length =
          infoHead.toList.length + (tok.toList.length + (infoTail ts).toList.length) from by
        simp [List.length_append]]
      rw [repF_skip tok.toList "PRACTICUM_TOKEN".toList infoHead.toList
        (tok.toList ++ (infoTail ts).toList) _ h1]
      congr 1
      obtain ⟨c, cs, hT⟩ : ∃ c cs, tok.toList = c :: cs := by
        cases hT : tok.toList with
        | nil => exact absurd hT hne
        | cons c cs => exact ⟨c, cs, rfl⟩
      rw [hT] at h2 ⊢
      rw [show (c :: cs).length + (infoTail ts).toList.length =
          (cs.length + (infoTail ts).toList.length) + 1 from by
        simp [List.length_cons]
        omega]
      rw [repF_hit (c :: cs) "PRACTICUM_TOKEN".toList (infoTail ts).toList (by simp) _]
      congr 1
      exact repF_none (c :: cs) "PRACTICUM_TOKEN".toList _ _ h2
    unfold strOccursIn
    rw [hred]
    exact h3

/-- Witness for C9 amended at the token `zq9zq` (which collides with
nothing in the fixed text) and cursor 0. -/
theorem C9_amended_witness :
    strOccursIn "zq9zq" (requestInfo "zq9zq" (.pyInt 0)) = true ∧
    strOccursIn "zq9zq" (redactedInfo "zq9zq" (.pyInt 0)) = false :=
  C9_amended "zq9zq" (.pyInt 0) (by decide) rfl rfl rfl

/-- C8: `get_api_answer` returns the parsed body exactly when the transport
succeeded with HTTP status 200 and the body parsed; every other outcome
(non-200 status, transport failure, malformed body) raises the single
unified `ConnectionError`, whose message carries the (redacted) request
description. -/
theorem C8_get_api_answer (tok : String) (ts : PyVal) (o : HttpOutcome) :
    (∀ et v, o = .resp 200 et (.ok v) → get_api_answer tok ts o = .ok v) ∧
    (∀ v, get_api_answer tok ts o = .ok v → ∃ et, o = .resp 200 et (.ok v)) ∧
    ((∀ et v, o ≠ .resp 200 et (.ok v)) →
      ∃ m, get_api_answer tok ts o = .error (.connectionError m) ∧
        strOccursIn (redactedInfo tok ts) m = true) := by
  refine ⟨?_, ?_, ?_⟩
  · rintro et v rfl
    norm_num [get_api_answer]
  · intro v h
    cases o with
    | reqError m => simp [get_api_answer] at h
    | resp status et body =>
      have hv := (get_api_answer_ok_iff tok ts _ v).mp h
      cases body with
      | ok w =>
        by_cases hs : status = 200
        · subst hs
          simp [envApiO] at hv
          subst hv
          exact ⟨et, rfl⟩
        · simp [envApiO, hs] at hv
      | error m => simp [envApiO] at hv
  · intro hno
    cases o with
    | reqError m =>
      exact ⟨"Не получен ответ при запросе " ++ redactedInfo tok ts ++ ". Ошибка: " ++ m,
        rfl, strOccursIn_embed4 _ _ _ _⟩
    | resp status et body =>
      by_cases h4 : 400 ≤ status
      · refine ⟨"Получен не верный HTTP ответ при запросе " ++ redactedInfo tok ts ++
          ". Ошибка: " ++ et, ?_, strOccursIn_embed4 _ _ _ _⟩
        simp [get_api_answer, h4]
      · by_cases h2 : status = 200
        · subst h2
          cases body with
          | ok w => exact absurd rfl (hno et w)
          | error m =>
            refine ⟨"Не получен ответ при запросе " ++ redactedInfo tok ts ++
              ". Ошибка: " ++ m, ?_, strOccursIn_embed4 _ _ _ _⟩
            simp [get_api_answer, h4]
        · refine ⟨"Получен не верный код HTTP ответа при запросе " ++ redactedInfo tok ts ++
            ". Код статуса: " ++ toString status, ?_, strOccursIn_embed4 _ _ _ _⟩
          simp [get_api_answer, h4, h2]

/-- Witness for C8: a 200 response returns its body; a transport failure
raises a `ConnectionError` carrying the request description. -/
theorem C8_get_api_answer_witness :
    get_api_answer "tok" (.pyInt 0) (.resp 200 "" (.ok .pyNone)) = .ok .pyNone ∧
    ∃ m, get_api_answer "tok" (.pyInt 0) (.reqError "x") = .error (.connectionError m) ∧
      strOccursIn (redactedInfo "tok" (.pyInt 0)) m = true :=
  ⟨(C8_get_api_answer "tok" (.pyInt 0) (.resp 200 "" (.ok .pyNone))).1 "" .pyNone rfl,
   (C8_get_api_answer "tok" (.pyInt 0) (.reqError "x")).2.2 (fun _ _ h => nomatch h)⟩
